import Mathlib

/-!
Verification of the sales-rep front-end components: KPI aggregation
(visit_analytics_dashboard.js), tracking-point filtering and visit
classification (daily_visit_tracker.js), and the notification panel's
reconnection / unread-count logic.

Numbers are modelled as exact rationals (reals for the trigonometric
distance code); JavaScript `Math.round` is round-half-up; a possibly
absent field is an `Option`; JavaScript truthiness on a number (`!x`,
`x || d`, `x && p`) treats `0` like an absent value and is modelled
explicitly.
-/

namespace SalesRep

/-- JavaScript `Math.round`: round half toward positive infinity. -/
def jsRound (q : ℚ) : ℤ := ⌊q + 1/2⌋

/-- `Math.round(x * 100) / 100`: round to 2 decimal places. -/
def round2 (q : ℚ) : ℚ := (jsRound (q * 100) : ℚ) / 100

/-- JavaScript truthiness of a possibly absent numeric field:
`undefined`/`null` and `0` are falsy. -/
def truthyNum (o : Option ℚ) : Bool :=
  match o with
  | none => false
  | some v => if v = 0 then false else true

/-- JavaScript `x || d` on a possibly absent numeric field. -/
def jsOr (o : Option ℚ) (d : ℚ) : ℚ :=
  match o with
  | none => d
  | some v => if v = 0 then d else v

/-! ## KPI aggregator (`calculateKPIs`, visit_analytics_dashboard.js) -/

/-- One `AnalyticsPeriodRow` as consumed by `calculateKPIs`; each numeric
field may be absent. -/
structure Row where
  total_visits : Option ℚ
  total_revenue : Option ℚ
  completion_rate : Option ℚ
  target_visits : Option ℚ
deriving DecidableEq

/-- The KPI summary record built by `calculateKPIs`. -/
structure KPIs where
  totalVisits : ℚ
  avgCompletionRate : ℚ
  totalRevenue : ℚ
  avgRevenueAchievement : ℚ
  growthRate : ℚ
  targetAchievement : ℚ
deriving DecidableEq

/-- The all-zero summary assigned for an empty input and in the catch
branch of `calculateKPIs`. -/
def zeroKPIs : KPIs :=
  { totalVisits := 0, avgCompletionRate := 0, totalRevenue := 0,
    avgRevenueAchievement := 0, growthRate := 0, targetAchievement := 0 }

/-- `analytics.reduce((sum, item) => sum + (item.f || 0), 0)` over a list
whose elements may be `null`; reading a field of a `null` element throws
(modelled as `Except.error`). -/
def sumF (f : Row → Option ℚ) : List (Option Row) → ℚ → Except Unit ℚ
  | [], acc => .ok acc
  | none :: _, _ => .error ()
  | some r :: rest, acc => sumF f rest (acc + (f r).getD 0)

/-- `analytics[i].total_visits || 0`: reading index `i`; out of bounds or a
`null` element throws. -/
def nthVisits (l : List (Option Row)) (i : ℕ) : Except Unit ℚ :=
  match l[i]? with
  | some (some r) => .ok (r.total_visits.getD 0)
  | _ => .error ()

/-- The growth-rate block of `calculateKPIs`: compares first and last
periods when there are at least two rows, guarding `firstPeriod > 0`. -/
def growthTry (l : List (Option Row)) : Except Unit ℚ :=
  if 2 ≤ l.length then
    match nthVisits l 0, nthVisits l (l.length - 1) with
    | .ok firstPeriod, .ok lastPeriod =>
        .ok (if 0 < firstPeriod then ((lastPeriod - firstPeriod) / firstPeriod) * 100 else 0)
    | _, _ => .error ()
  else .ok 0

/-- The body of the `try` block of `calculateKPIs`. -/
def kpiTry (l : List (Option Row)) : Except Unit KPIs :=
  match sumF (fun r => r.total_visits) l 0 with
  | .error e => .error e
  | .ok totalVisits =>
  match sumF (fun r => r.total_revenue) l 0 with
  | .error e => .error e
  | .ok totalRevenue =>
  match sumF (fun r => r.completion_rate) l 0 with
  | .error e => .error e
  | .ok crSum =>
  match growthTry l with
  | .error e => .error e
  | .ok growthRate =>
  match sumF (fun r => r.target_visits) l 0 with
  | .error e => .error e
  | .ok totalTarget =>
    .ok { totalVisits := totalVisits,
          avgCompletionRate := round2 (crSum / l.length),
          totalRevenue := totalRevenue,
          avgRevenueAchievement :=
            if 0 < totalRevenue then (jsRound ((totalRevenue / (totalRevenue * 1.2)) * 100) : ℚ)
            else 0,
          growthRate := round2 growthRate,
          targetAchievement :=
            if 0 < totalTarget then round2 ((totalVisits / totalTarget) * 100) else 0 }

/-- `calculateKPIs`: empty input short-circuits to the all-zero summary;
otherwise the try block runs and any exception is caught by assigning the
all-zero summary. -/
def calculateKPIs (l : List (Option Row)) : KPIs :=
  if l.length = 0 then zeroKPIs
  else
    match kpiTry l with
    | .ok k => k
    | .error _ => zeroKPIs

/-- `analytics[0].total_visits || 0` for a list of proper rows. -/
def firstVisits (rows : List Row) : ℚ :=
  match rows.head? with
  | some r => r.total_visits.getD 0
  | none => 0

/-- `analytics[analytics.length - 1].total_visits || 0` for a list of
proper rows. -/
def lastVisits (rows : List Row) : ℚ :=
  match rows.getLast? with
  | some r => r.total_visits.getD 0
  | none => 0

/-- The growth rate before rounding, as a pure function of proper rows. -/
def growthPure (rows : List Row) : ℚ :=
  if 2 ≤ rows.length then
    if 0 < firstVisits rows then ((lastVisits rows - firstVisits rows) / firstVisits rows) * 100
    else 0
  else 0

/-- Sum of a field over proper rows, absent treated as 0. -/
def fieldSum (f : Row → Option ℚ) (rows : List Row) : ℚ :=
  (rows.map (fun r => (f r).getD 0)).sum

/-- Row builder used in concrete instances: visits, revenue, completion
rate, target. -/
def mkRow (v rev cr tgt : Option ℚ) : Row :=
  { total_visits := v, total_revenue := rev, completion_rate := cr, target_visits := tgt }

/-! ## Tracking-point filter (`validateTrackingData`, daily_visit_tracker.js) -/

/-- A GPS `TrackingPoint` as consumed by `validateTrackingData`; each
numeric field may be absent. -/
structure TrackPoint where
  latitude : Option ℚ
  longitude : Option ℚ
  accuracy : Option ℚ
deriving DecidableEq

/-- Field read after a truthiness check; `0` is the JS value of reading a
field that the guard already ruled out. -/
def numOr0 (o : Option ℚ) : ℚ := o.getD 0

/-- The filter predicate of `validateTrackingData`: truthy coordinates,
coordinate ranges, then the accuracy check `point.accuracy && point.accuracy > 1000`. -/
def keepPoint (p : TrackPoint) : Bool :=
  if truthyNum p.latitude = false ∨ truthyNum p.longitude = false then false
  else if numOr0 p.latitude < -90 ∨ 90 < numOr0 p.latitude ∨
          numOr0 p.longitude < -180 ∨ 180 < numOr0 p.longitude then false
  else if truthyNum p.accuracy = true ∧ 1000 < numOr0 p.accuracy then false
  else true

/-- `validateTrackingData`: `data.filter(point => ...)`. -/
def validateTrackingData (data : List TrackPoint) : List TrackPoint :=
  data.filter keepPoint

/-- Accuracy condition of the claim: when present, at most 1000. -/
def accuracyOk (o : Option ℚ) : Bool :=
  match o with
  | some a => if a ≤ 1000 then true else false
  | none => true

/-- Decision procedure written from the claim's words (for comparison with
the code): latitude and longitude present and in range, accuracy when
present at most 1000. -/
def retainSpecClaim (p : TrackPoint) : Bool :=
  match p.latitude, p.longitude with
  | some la, some lo =>
      if (-90 ≤ la ∧ la ≤ 90) ∧ (-180 ≤ lo ∧ lo ≤ 180) ∧ accuracyOk p.accuracy = true then true
      else false
  | _, _ => false

/-- Decision procedure for the amended claim: additionally a zero latitude
or longitude counts as absent (JS truthiness) and is discarded. -/
def retainSpecAmended (p : TrackPoint) : Bool :=
  match p.latitude, p.longitude with
  | some la, some lo =>
      if la ≠ 0 ∧ lo ≠ 0 ∧ (-90 ≤ la ∧ la ≤ 90) ∧ (-180 ≤ lo ∧ lo ≤ 180) ∧
         accuracyOk p.accuracy = true then true
      else false
  | _, _ => false

/-- Point builder used in concrete instances: latitude, longitude,
accuracy. -/
def mkPoint (la lo acc : Option ℚ) : TrackPoint :=
  { latitude := la, longitude := lo, accuracy := acc }

/-! ## Visit classifiers (daily_visit_tracker.js)

Timestamps (planned time, actual start, `now`) are absolute times in
milliseconds, as produced by JS `Date` arithmetic; the code divides by
1000 and 60 to obtain minutes. -/

/-- A `VisitRecord` as consumed by the classifiers. -/
structure Visit where
  state : String
  planned_time : Option ℚ
  actual_start_time : Option ℚ
  duration : Option ℚ
deriving DecidableEq

/-- `getVisitTimeStatus`. -/
def getVisitTimeStatus (now : ℚ) (v : Visit) : String :=
  match v.planned_time with
  | none => "unknown"
  | some plannedTime =>
    match v.state == "completed", v.actual_start_time with
    | true, some actualStart =>
        let diffMinutes := (actualStart - plannedTime) / 1000 / 60
        if diffMinutes ≤ -5 then "early"
        else if diffMinutes ≤ 15 then "on-time"
        else "late"
    | _, _ =>
        if v.state == "planned" then
          let diffMinutes := (now - plannedTime) / 1000 / 60
          if 15 < diffMinutes then "overdue"
          else if -30 < diffMinutes then "upcoming"
          else "scheduled"
        else v.state

/-- `calculateVisitProgress`; `-1` is the overdue sentinel. -/
def calculateVisitProgress (now : ℚ) (v : Visit) : ℚ :=
  if v.state == "completed" then 100
  else if v.state == "cancelled" then 0
  else
    match v.state == "in_progress", v.actual_start_time with
    | true, some startTime =>
        let elapsed := (now - startTime) / 1000 / 60
        let expected := jsOr v.duration 60
        min (elapsed / expected * 100) 95
    | _, _ =>
        if v.state == "planned" then
          match v.planned_time with
          | some plannedTime => if plannedTime < now then -1 else 0
          | none => 0
        else 0

/-- Visit builder used in concrete instances: state, planned time, actual
start, duration. -/
def mkVisit (st : String) (p a d : Option ℚ) : Visit :=
  { state := st, planned_time := p, actual_start_time := a, duration := d }

/-! ## Distance and travel time (daily_visit_tracker.js)

The trigonometric code is modelled over the reals. -/

/-- A location with both coordinates present (the claims quantify over
present locations; the code's truthiness guard on the latitudes is kept in
`calculateDistance`). -/
structure GeoLoc where
  latitude : ℝ
  longitude : ℝ

/-- `toRadians(degrees)`. -/
noncomputable def toRadians (degrees : ℝ) : ℝ := degrees * (Real.pi / 180)

/-- `Math.atan2(y, x)` over the reals. -/
noncomputable def jsAtan2 (y x : ℝ) : ℝ :=
  if 0 < x then Real.arctan (y / x)
  else if x < 0 ∧ 0 ≤ y then Real.arctan (y / x) + Real.pi
  else if x < 0 then Real.arctan (y / x) - Real.pi
  else if 0 < y then Real.pi / 2
  else if y < 0 then -(Real.pi / 2)
  else 0

/-- The haversine computation inside `calculateDistance` (R = 6371 km). -/
noncomputable def haversineDistance (cur vis : GeoLoc) : ℝ :=
  let R : ℝ := 6371
  let dLat := toRadians (vis.latitude - cur.latitude)
  let dLon := toRadians (vis.longitude - cur.longitude)
  let a := Real.sin (dLat / 2) * Real.sin (dLat / 2) +
           Real.cos (toRadians cur.latitude) * Real.cos (toRadians vis.latitude) *
           Real.sin (dLon / 2) * Real.sin (dLon / 2)
  let c := 2 * jsAtan2 (Real.sqrt a) (Real.sqrt (1 - a))
  R * c

/-- `calculateDistance`: the guard `!this.state.location.latitude || !visit.location_lat`
returns `null` when either latitude is absent — or `0`, by JS truthiness. -/
noncomputable def calculateDistance (cur vis : GeoLoc) : Option ℝ :=
  if cur.latitude = 0 ∨ vis.latitude = 0 then none
  else some (haversineDistance cur vis)

/-- `Math.round` over the reals. -/
noncomputable def jsRoundR (x : ℝ) : ℤ := ⌊x + 1/2⌋

/-- `estimateTravelTime`: `if (!distance) return null` also returns `null`
for a zero distance; otherwise minutes at 40 km/h, rounded. -/
noncomputable def estimateTravelTime (cur vis : GeoLoc) : Option ℤ :=
  match calculateDistance cur vis with
  | none => none
  | some distance =>
      if distance = 0 then none
      else some (jsRoundR (distance / 40 * 60))

/-! ## Notification reconnection (`attemptReconnection`, notifications component) -/

/-- The connection-relevant fields of the notifications component. -/
structure ReconnState where
  reconnectAttempts : ℕ
  connectionStatus : String
deriving DecidableEq

/-- `this.maxReconnectAttempts = 5`. -/
def maxReconnectAttempts : ℕ := 5

/-- `attemptReconnection`: gives up (no delay scheduled, status `error`)
once `reconnectAttempts` reaches the maximum; otherwise increments the
counter and schedules a retry after `Math.min(1000 * Math.pow(2, reconnectAttempts), 30000)`
milliseconds, the counter having already been incremented. -/
def attemptReconnection (s : ReconnState) : Option ℕ × ReconnState :=
  if maxReconnectAttempts ≤ s.reconnectAttempts then
    (none, { s with connectionStatus := "error" })
  else
    let k := s.reconnectAttempts + 1
    (some (min (1000 * 2 ^ k) 30000), { s with reconnectAttempts := k })

/-- Run `n` successive failing reconnection rounds (each scheduled retry
fails and calls `attemptReconnection` again), collecting the scheduled
delays (`none` = no attempt made). -/
def runReconnect : ℕ → ReconnState → List (Option ℕ) × ReconnState
  | 0, s => ([], s)
  | n + 1, s =>
      let (d, s') := attemptReconnection s
      let (ds, s'') := runReconnect n s'
      (d :: ds, s'')

/-! ## Notification unread count (notifications component) -/

/-- A `NotificationRecord` held in component state. -/
structure Notif where
  id : ℤ
  is_read : Bool
  isNew : Bool
deriving DecidableEq

/-- The list/count fields of the notifications component state. -/
structure NState where
  notifications : List Notif
  unreadCount : ℕ
  totalCount : ℕ
deriving DecidableEq

/-- `updateUnreadCount`. -/
def updateUnreadCount (s : NState) : NState :=
  { s with unreadCount := (s.notifications.filter (fun n => !n.is_read)).length }

/-- The unread-count invariant of the component. -/
def UnreadInv (s : NState) : Prop :=
  s.unreadCount = (s.notifications.filter (fun n => !n.is_read)).length

/-- `loadNotifications`: on success replaces the list with the fetched
rows and recounts; on an ORM failure the catch block leaves the list and
count untouched. -/
def loadNotifications (ok : Bool) (fetched : List Notif) (s : NState) : NState :=
  if ok then
    updateUnreadCount { s with notifications := fetched, totalCount := fetched.length }
  else s

/-- `addNewNotification`: unshift the new (unread-marked-new) record, then
recount. -/
def addNewNotification (n : Notif) (s : NState) : NState :=
  updateUnreadCount { s with notifications := { n with isNew := true } :: s.notifications }

/-- Mutate the first record with the given id to read (the JS `find`). -/
def setReadFirst : List Notif → ℤ → List Notif
  | [], _ => []
  | n :: rest, i =>
      if n.id = i then { n with is_read := true, isNew := false } :: rest
      else n :: setReadFirst rest i

/-- `markAsRead`: the ORM write may throw (`ok = false`), in which case
the catch block changes nothing; otherwise the found record is marked read
and the count updated. -/
def markAsRead (ok : Bool) (i : ℤ) (s : NState) : NState :=
  if ok then updateUnreadCount { s with notifications := setReadFirst s.notifications i }
  else s

/-- `markAllAsRead`: collect unread ids; nothing happens when there are
none or when the ORM write throws; otherwise every listed record is marked
read and the count updated. -/
def markAllAsRead (ok : Bool) (s : NState) : NState :=
  let unreadIds := (s.notifications.filter (fun n => !n.is_read)).map (fun n => n.id)
  if unreadIds.length ≠ 0 then
    if ok then
      updateUnreadCount
        { s with notifications := s.notifications.map (fun n =>
            if unreadIds.contains n.id then { n with is_read := true, isNew := false } else n) }
    else s
  else s

/-- `markNotificationRead`: purely local; only acts when the record is
found and unread. -/
def markNotificationRead (i : ℤ) (s : NState) : NState :=
  match s.notifications.find? (fun n => n.id = i) with
  | some n =>
      if !n.is_read then updateUnreadCount { s with notifications := setReadFirst s.notifications i }
      else s
  | none => s

/-! ## Lemmas: KPI aggregator -/

theorem sumF_map_some (f : Row → Option ℚ) (rows : List Row) :
    ∀ acc : ℚ, sumF f (rows.map some) acc = .ok (acc + fieldSum f rows) := by
  induction rows with
  | nil => intro acc; simp [sumF, fieldSum]
  | cons r rs ih =>
      intro acc
      simp only [List.map_cons, sumF]
      rw [ih (acc + ((f r).getD 0))]
      simp only [fieldSum, List.map_cons, List.sum_cons, Except.ok.injEq]
      ring

theorem nthVisits_map_some (rows : List Row) (i : ℕ) (h : i < rows.length) :
    nthVisits (rows.map some) i = .ok ((rows.get ⟨i, h⟩).total_visits.getD 0) := by
  simp [nthVisits, List.getElem?_map, List.getElem?_eq_getElem h]

theorem firstVisits_eq_get (rows : List Row) (h : 0 < rows.length) :
    firstVisits rows = (rows.get ⟨0, h⟩).total_visits.getD 0 := by
  cases rows with
  | nil => exact absurd h (by simp)
  | cons r rs => rfl

theorem lastVisits_eq_get (rows : List Row) (h : rows.length - 1 < rows.length) :
    lastVisits rows = (rows.get ⟨rows.length - 1, h⟩).total_visits.getD 0 := by
  unfold lastVisits
  rw [List.getLast?_eq_getElem?, List.getElem?_eq_getElem h]
  rfl

theorem growthTry_map_some (rows : List Row) :
    growthTry (rows.map some) = .ok (growthPure rows) := by
  unfold growthTry growthPure
  simp only [List.length_map]
  by_cases h2 : 2 ≤ rows.length
  · have h0 : 0 < rows.length := by omega
    have hl : rows.length - 1 < rows.length := by omega
    rw [if_pos h2, if_pos h2, nthVisits_map_some rows 0 h0, nthVisits_map_some rows _ hl,
      firstVisits_eq_get rows h0, lastVisits_eq_get rows hl]
  · rw [if_neg h2, if_neg h2]

theorem kpiTry_map_some (rows : List Row) :
    kpiTry (rows.map some) = .ok
      { totalVisits := fieldSum (fun r => r.total_visits) rows,
        avgCompletionRate := round2 (fieldSum (fun r => r.completion_rate) rows / rows.length),
        totalRevenue := fieldSum (fun r => r.total_revenue) rows,
        avgRevenueAchievement :=
          if 0 < fieldSum (fun r => r.total_revenue) rows then
            (jsRound ((fieldSum (fun r => r.total_revenue) rows /
              (fieldSum (fun r => r.total_revenue) rows * 1.2)) * 100) : ℚ)
          else 0,
        growthRate := round2 (growthPure rows),
        targetAchievement :=
          if 0 < fieldSum (fun r => r.target_visits) rows then
            round2 ((fieldSum (fun r => r.total_visits) rows /
              fieldSum (fun r => r.target_visits) rows) * 100)
          else 0 } := by
  unfold kpiTry
  rw [sumF_map_some, sumF_map_some, sumF_map_some, sumF_map_some, growthTry_map_some]
  simp [List.length_map]

theorem round2_zero : round2 0 = 0 := by
  unfold round2 jsRound
  norm_num

theorem calculateKPIs_map_some (rows : List Row) (h : rows ≠ []) :
    calculateKPIs (rows.map some) =
      { totalVisits := fieldSum (fun r => r.total_visits) rows,
        avgCompletionRate := round2 (fieldSum (fun r => r.completion_rate) rows / rows.length),
        totalRevenue := fieldSum (fun r => r.total_revenue) rows,
        avgRevenueAchievement :=
          if 0 < fieldSum (fun r => r.total_revenue) rows then
            (jsRound ((fieldSum (fun r => r.total_revenue) rows /
              (fieldSum (fun r => r.total_revenue) rows * 1.2)) * 100) : ℚ)
          else 0,
        growthRate := round2 (growthPure rows),
        targetAchievement :=
          if 0 < fieldSum (fun r => r.target_visits) rows then
            round2 ((fieldSum (fun r => r.total_visits) rows /
              fieldSum (fun r => r.target_visits) rows) * 100)
          else 0 } := by
  unfold calculateKPIs
  have hlen : ¬ (rows.map some).length = 0 := by
    simpa [List.length_eq_zero] using h
  rw [if_neg hlen, kpiTry_map_some]

theorem totalVisits_eq (rows : List Row) (h : rows ≠ []) :
    (calculateKPIs (rows.map some)).totalVisits = fieldSum (fun r => r.total_visits) rows := by
  rw [calculateKPIs_map_some rows h]

theorem totalRevenue_eq (rows : List Row) (h : rows ≠ []) :
    (calculateKPIs (rows.map some)).totalRevenue = fieldSum (fun r => r.total_revenue) rows := by
  rw [calculateKPIs_map_some rows h]

theorem avgCompletionRate_eq (rows : List Row) (h : rows ≠ []) :
    (calculateKPIs (rows.map some)).avgCompletionRate =
      round2 (fieldSum (fun r => r.completion_rate) rows / rows.length) := by
  rw [calculateKPIs_map_some rows h]

theorem growthRate_eq (rows : List Row) (h : rows ≠ []) :
    (calculateKPIs (rows.map some)).growthRate = round2 (growthPure rows) := by
  rw [calculateKPIs_map_some rows h]

theorem targetAchievement_eq (rows : List Row) (h : rows ≠ []) :
    (calculateKPIs (rows.map some)).targetAchievement =
      (if 0 < fieldSum (fun r => r.target_visits) rows then
        round2 ((fieldSum (fun r => r.total_visits) rows /
          fieldSum (fun r => r.target_visits) rows) * 100)
      else 0) := by
  rw [calculateKPIs_map_some rows h]

/-! ## Claims C1-C4 -/

/-- Claim C1: for every input sequence of analytics rows, `calculateKPIs`
produces `totalVisits` and `totalRevenue` equal to the sums of the rows'
`total_visits` and `total_revenue` fields (absent treated as 0) and
`avgCompletionRate` equal to the mean of the `completion_rate` fields
rounded to 2 decimal places; the empty sequence yields the all-zero
summary. -/
theorem kpi_sums_mean_empty :
    (∀ rows : List Row, rows ≠ [] →
      (calculateKPIs (rows.map some)).totalVisits = fieldSum (fun r => r.total_visits) rows ∧
      (calculateKPIs (rows.map some)).totalRevenue = fieldSum (fun r => r.total_revenue) rows ∧
      (calculateKPIs (rows.map some)).avgCompletionRate =
        round2 (fieldSum (fun r => r.completion_rate) rows / rows.length)) ∧
    calculateKPIs [] = zeroKPIs := by
  refine ⟨fun rows h => ⟨totalVisits_eq rows h, totalRevenue_eq rows h,
    avgCompletionRate_eq rows h⟩, rfl⟩

/-- Witness for C1 at the spec's single-row example. -/
theorem kpi_sums_mean_empty_witness :
    (calculateKPIs (List.map some [mkRow (some 10) (some 100) (some 50) (some 20)])).totalVisits =
      fieldSum (fun r => r.total_visits) [mkRow (some 10) (some 100) (some 50) (some 20)] ∧
    (calculateKPIs (List.map some [mkRow (some 10) (some 100) (some 50) (some 20)])).totalRevenue =
      fieldSum (fun r => r.total_revenue) [mkRow (some 10) (some 100) (some 50) (some 20)] ∧
    (calculateKPIs (List.map some
        [mkRow (some 10) (some 100) (some 50) (some 20)])).avgCompletionRate =
      round2 (fieldSum (fun r => r.completion_rate)
        [mkRow (some 10) (some 100) (some 50) (some 20)] /
        (List.length [mkRow (some 10) (some 100) (some 50) (some 20)])) :=
  kpi_sums_mean_empty.1 _ (List.cons_ne_nil _ _)

/-- Claim C2 (amended): the published `growthRate` is the percentage change
between first and last rows' `total_visits` rounded to 2 decimal places
(the claim omitted the rounding); it is 0 with fewer than 2 rows or a
first value that is not positive. -/
theorem growthRate_first_last (rows : List Row) :
    (2 ≤ rows.length → 0 < firstVisits rows →
      (calculateKPIs (rows.map some)).growthRate =
        round2 (((lastVisits rows - firstVisits rows) / firstVisits rows) * 100)) ∧
    (rows.length < 2 → (calculateKPIs (rows.map some)).growthRate = 0) ∧
    (2 ≤ rows.length → firstVisits rows = 0 →
      (calculateKPIs (rows.map some)).growthRate = 0) := by
  by_cases hnil : rows = []
  · subst hnil
    exact ⟨fun h2 => absurd h2 (by simp), fun _ => rfl, fun h2 => absurd h2 (by simp)⟩
  · rw [growthRate_eq rows hnil]
    refine ⟨fun h2 hf => ?_, fun hlt => ?_, fun h2 hf => ?_⟩
    · unfold growthPure
      rw [if_pos h2, if_pos hf]
    · unfold growthPure
      rw [if_neg (by omega)]
      exact round2_zero
    · unfold growthPure
      rw [if_pos h2, if_neg (by rw [hf]; exact lt_irrefl 0)]
      exact round2_zero

/-- Counterexample to C2 as stated: with `total_visits` 3 then 4 the code
publishes 33.33, not the exact `((4 - 3) / 3) * 100 = 100/3`. -/
theorem growthRate_exact_cex :
    (calculateKPIs (List.map some
      [mkRow (some 3) none none none, mkRow (some 4) none none none])).growthRate = 3333 / 100 ∧
    (3333 / 100 : ℚ) ≠ ((4 - 3) / 3) * 100 := by
  constructor
  · rw [growthRate_eq _ (List.cons_ne_nil _ _)]
    simp only [growthPure, firstVisits, lastVisits, mkRow, List.head?_cons,
      List.getLast?_cons_cons, List.getLast?_singleton, List.length_cons,
      List.length_singleton, List.length_nil, Option.getD_some]
    norm_num [round2, jsRound]
  · norm_num

/-- Witness for C2 at the spec's examples: rows 10 then 20 give 100,
rows 0 then 5 give 0. -/
theorem growthRate_first_last_witness :
    (calculateKPIs (List.map some
      [mkRow (some 10) none none none, mkRow (some 20) none none none])).growthRate = 100 ∧
    (calculateKPIs (List.map some
      [mkRow (some 0) none none none, mkRow (some 5) none none none])).growthRate = 0 := by
  constructor
  · have h := (growthRate_first_last
      [mkRow (some 10) none none none, mkRow (some 20) none none none]).1
      (by simp) (by norm_num [firstVisits, mkRow])
    rw [h]
    simp only [firstVisits, lastVisits, mkRow, List.head?_cons, List.getLast?_cons_cons,
      List.getLast?_singleton, Option.getD_some]
    norm_num [round2, jsRound]
  · exact (growthRate_first_last
      [mkRow (some 0) none none none, mkRow (some 5) none none none]).2.2
      (by simp) rfl

/-- Claim C3: `targetAchievement` is `(totalVisits / total_target) * 100`
rounded to 2 decimal places where `total_target` sums the `target_visits`
fields, and 0 when that total is 0. -/
theorem targetAchievement_formula (rows : List Row) :
    (0 < fieldSum (fun r => r.target_visits) rows →
      (calculateKPIs (rows.map some)).targetAchievement =
        round2 ((fieldSum (fun r => r.total_visits) rows /
          fieldSum (fun r => r.target_visits) rows) * 100)) ∧
    (fieldSum (fun r => r.target_visits) rows = 0 →
      (calculateKPIs (rows.map some)).targetAchievement = 0) := by
  by_cases hnil : rows = []
  · subst hnil
    refine ⟨fun h => absurd h (by simp [fieldSum]), fun _ => rfl⟩
  · rw [targetAchievement_eq rows hnil]
    refine ⟨fun h => if_pos h, fun h => if_neg (by rw [h]; exact lt_irrefl 0)⟩

/-- Witness for C3 at the spec's end-to-end example: visits [100, 120, 150]
against targets [100, 100, 100] give totalVisits 370 and
targetAchievement 123.33. -/
theorem targetAchievement_formula_witness :
    (calculateKPIs (List.map some
      [mkRow (some 100) none none (some 100), mkRow (some 120) none none (some 100),
       mkRow (some 150) none none (some 100)])).totalVisits = 370 ∧
    (calculateKPIs (List.map some
      [mkRow (some 100) none none (some 100), mkRow (some 120) none none (some 100),
       mkRow (some 150) none none (some 100)])).targetAchievement = 12333 / 100 := by
  constructor
  · rw [totalVisits_eq _ (List.cons_ne_nil _ _)]
    norm_num [fieldSum, mkRow]
  · have h := (targetAchievement_formula
      [mkRow (some 100) none none (some 100), mkRow (some 120) none none (some 100),
       mkRow (some 150) none none (some 100)]).1
      (by norm_num [fieldSum, mkRow])
    rw [h]
    norm_num [fieldSum, mkRow, round2, jsRound]

/-- Claim C4: if the try block of `calculateKPIs` raises, the published
summary is exactly the all-zero record, never a partially updated one. -/
theorem kpi_fail_closed :
    ∀ l : List (Option Row), kpiTry l = .error () → calculateKPIs l = zeroKPIs := by
  intro l h
  unfold calculateKPIs
  by_cases h0 : l.length = 0
  · rw [if_pos h0]
  · rw [if_neg h0, h]

/-- Witness for C4: a `null` row makes the field reads throw and the
aggregator publishes the all-zero summary. -/
theorem kpi_fail_closed_witness :
    kpiTry [none] = .error () ∧ calculateKPIs [none] = zeroKPIs :=
  ⟨rfl, kpi_fail_closed [none] rfl⟩

/-! ## Claim C5 -/

theorem keepPoint_eq_amended (p : TrackPoint) : keepPoint p = retainSpecAmended p := by
  rcases p with ⟨la, lo, acc⟩
  rcases la with _ | la
  · simp [keepPoint, retainSpecAmended, truthyNum]
  rcases lo with _ | lo
  · simp [keepPoint, retainSpecAmended, truthyNum]
  rcases acc with _ | a <;>
    simp only [keepPoint, retainSpecAmended, truthyNum, numOr0, accuracyOk,
      Option.getD_some, Option.getD_none] <;>
    split_ifs <;>
    first
    | rfl
    | (exfalso; simp_all; try (casesm* _ ∧ _, _ ∨ _) <;> linarith)

/-- Claim C5 (amended): `validateTrackingData` retains exactly the points
whose latitude and longitude are present and nonzero (JS truthiness treats
a 0 coordinate as absent), in range, and whose accuracy, when present,
does not exceed 1000; retained points keep their input order.  The second
conjunct runs the spec's examples: latitude 95 and accuracy 1500 are
discarded, a valid point with accuracy 50 is retained. -/
theorem validate_filter_char :
    (∀ l : List TrackPoint,
      validateTrackingData l = l.filter retainSpecAmended ∧
      (validateTrackingData l).Sublist l) ∧
    validateTrackingData
      [mkPoint (some 95) (some 46) none, mkPoint (some 24) (some 46) (some 1500),
       mkPoint (some 24) (some 46) (some 50)] =
      [mkPoint (some 24) (some 46) (some 50)] := by
  constructor
  · intro l
    refine ⟨?_, List.filter_sublist l⟩
    unfold validateTrackingData
    exact List.filter_congr fun p _ => keepPoint_eq_amended p
  · simp only [validateTrackingData, List.filter, keepPoint, truthyNum, numOr0,
      mkPoint, Option.getD_some]
    norm_num

/-- Counterexample to C5 as stated: the point (0, 10) with accuracy 50 has
present, in-range coordinates and good accuracy, so the claim retains it,
but the code's truthiness guard `!point.latitude` discards latitude 0. -/
theorem validate_zero_latitude_cex :
    retainSpecClaim (mkPoint (some 0) (some 10) (some 50)) = true ∧
    validateTrackingData [mkPoint (some 0) (some 10) (some 50)] = [] := by
  constructor
  · simp only [retainSpecClaim, accuracyOk, mkPoint]
    norm_num
  · simp only [validateTrackingData, List.filter, keepPoint, truthyNum, numOr0,
      mkPoint, Option.getD_some]
    norm_num

/-! ## Claims C6 and C7 -/

theorem timeStatus_completed (now p a : ℚ) (v : Visit) (hp : v.planned_time = some p)
    (hs : v.state = "completed") (ha : v.actual_start_time = some a) :
    getVisitTimeStatus now v =
      (if (a - p) / 1000 / 60 ≤ -5 then "early"
       else if (a - p) / 1000 / 60 ≤ 15 then "on-time" else "late") := by
  unfold getVisitTimeStatus
  rw [hp, hs, ha]
  simp

theorem timeStatus_planned (now p : ℚ) (v : Visit) (hp : v.planned_time = some p)
    (hs : v.state = "planned") :
    getVisitTimeStatus now v =
      (if 15 < (now - p) / 1000 / 60 then "overdue"
       else if -30 < (now - p) / 1000 / 60 then "upcoming" else "scheduled") := by
  unfold getVisitTimeStatus
  rw [hp, hs]
  simp

/-- Claim C6: `getVisitTimeStatus` classifies a completed visit with an
actual start against its planned time with thresholds -5 and +15 minutes
(early / on-time / late), and a planned visit against now with thresholds
+15 and -30 minutes (overdue / upcoming / scheduled). -/
theorem visit_time_status (now p : ℚ) (v : Visit) (hp : v.planned_time = some p) :
    (∀ a : ℚ, v.state = "completed" → v.actual_start_time = some a →
      ((getVisitTimeStatus now v = "early" ↔ (a - p) / 1000 / 60 ≤ -5) ∧
       (getVisitTimeStatus now v = "on-time" ↔
         -5 < (a - p) / 1000 / 60 ∧ (a - p) / 1000 / 60 ≤ 15) ∧
       (getVisitTimeStatus now v = "late" ↔ 15 < (a - p) / 1000 / 60))) ∧
    (v.state = "planned" →
      ((getVisitTimeStatus now v = "overdue" ↔ 15 < (now - p) / 1000 / 60) ∧
       (getVisitTimeStatus now v = "upcoming" ↔
         -30 < (now - p) / 1000 / 60 ∧ (now - p) / 1000 / 60 ≤ 15) ∧
       (getVisitTimeStatus now v = "scheduled" ↔ (now - p) / 1000 / 60 ≤ -30))) := by
  constructor
  · intro a hs ha
    rw [timeStatus_completed now p a v hp hs ha]
    refine ⟨?_, ?_, ?_⟩ <;> split_ifs with h1 h2 <;> simp_all <;> linarith
  · intro hs
    rw [timeStatus_planned now p v hp hs]
    refine ⟨?_, ?_, ?_⟩ <;> split_ifs with h1 h2 <;> simp_all <;> linarith

/-- Witness for C6 at the spec's examples: a completed visit started 20
minutes late is "late", 10 minutes early is "early", 5 minutes late is
"on-time" (times in milliseconds, planned time 0). -/
theorem visit_time_status_witness :
    getVisitTimeStatus 0 (mkVisit "completed" (some 0) (some 1200000) none) = "late" ∧
    getVisitTimeStatus 0 (mkVisit "completed" (some 0) (some (-600000)) none) = "early" ∧
    getVisitTimeStatus 0 (mkVisit "completed" (some 0) (some 300000) none) = "on-time" := by
  refine ⟨?_, ?_, ?_⟩
  · exact ((visit_time_status 0 0 (mkVisit "completed" (some 0) (some 1200000) none) rfl).1
      1200000 rfl rfl).2.2.mpr (by norm_num)
  · exact ((visit_time_status 0 0 (mkVisit "completed" (some 0) (some (-600000)) none) rfl).1
      (-600000) rfl rfl).1.mpr (by norm_num)
  · exact ((visit_time_status 0 0 (mkVisit "completed" (some 0) (some 300000) none) rfl).1
      300000 rfl rfl).2.1.mpr (by norm_num)

/-- Claim C7: `calculateVisitProgress` returns 100 when completed, 0 when
cancelled, the capped elapsed/expected ratio (never above 95) when
in_progress with an actual start — the expected duration being
`visit.duration || 60`, so an absent or zero duration defaults to 60 —
the sentinel -1 when planned and past the planned time, and 0
otherwise. -/
theorem visit_progress (now : ℚ) (v : Visit) :
    (v.state = "completed" → calculateVisitProgress now v = 100) ∧
    (v.state = "cancelled" → calculateVisitProgress now v = 0) ∧
    (∀ s : ℚ, v.state = "in_progress" → v.actual_start_time = some s →
      calculateVisitProgress now v =
        min ((now - s) / 1000 / 60 / jsOr v.duration 60 * 100) 95 ∧
      calculateVisitProgress now v ≤ 95) ∧
    (∀ p : ℚ, v.state = "planned" → v.planned_time = some p → p < now →
      calculateVisitProgress now v = -1) ∧
    (∀ p : ℚ, v.state = "planned" → v.planned_time = some p → ¬ p < now →
      calculateVisitProgress now v = 0) ∧
    (v.state = "planned" → v.planned_time = none → calculateVisitProgress now v = 0) ∧
    (v.state = "in_progress" → v.actual_start_time = none →
      calculateVisitProgress now v = 0) ∧
    (v.state ≠ "completed" → v.state ≠ "cancelled" → v.state ≠ "in_progress" →
      v.state ≠ "planned" → calculateVisitProgress now v = 0) := by
  refine ⟨?_, ?_, ?_, ?_, ?_, ?_, ?_, ?_⟩
  · intro hs
    unfold calculateVisitProgress
    rw [hs]
    simp
  · intro hs
    unfold calculateVisitProgress
    rw [hs]
    simp
  · intro s hs ha
    have hred : calculateVisitProgress now v =
        min ((now - s) / 1000 / 60 / jsOr v.duration 60 * 100) 95 := by
      unfold calculateVisitProgress
      rw [hs, ha]
      simp
    exact ⟨hred, hred ▸ min_le_right _ _⟩
  · intro p hs hp hlt
    unfold calculateVisitProgress
    rw [hs, hp]
    simp [hlt]
  · intro p hs hp hge
    unfold calculateVisitProgress
    rw [hs, hp]
    simp [hge]
  · intro hs hp
    unfold calculateVisitProgress
    rw [hs, hp]
    simp
  · intro hs ha
    unfold calculateVisitProgress
    rw [hs, ha]
    simp
  · intro h1 h2 h3 h4
    unfold calculateVisitProgress
    rcases hv : v.actual_start_time with _ | a <;>
      simp [hv, h1, h2, h3, h4]

/-- Witness for C7: an in-progress visit started 30 minutes ago with no
duration set falls back to the 60-minute default; one with duration 90 is
also covered. -/
theorem visit_progress_witness :
    (calculateVisitProgress 1800000 (mkVisit "in_progress" none (some 0) none) =
       min ((1800000 - 0) / 1000 / 60 / jsOr none 60 * 100) 95 ∧
     calculateVisitProgress 1800000 (mkVisit "in_progress" none (some 0) none) ≤ 95) ∧
    (calculateVisitProgress 1800000 (mkVisit "in_progress" none (some 0) (some 90)) =
       min ((1800000 - 0) / 1000 / 60 / jsOr (some 90) 60 * 100) 95 ∧
     calculateVisitProgress 1800000 (mkVisit "in_progress" none (some 0) (some 90)) ≤ 95) :=
  ⟨(visit_progress 1800000 (mkVisit "in_progress" none (some 0) none)).2.2.1 0 rfl rfl,
   (visit_progress 1800000 (mkVisit "in_progress" none (some 0) (some 90))).2.2.1 0 rfl rfl⟩

/-! ## Claim C8 -/

theorem haversine_self (loc : GeoLoc) : haversineDistance loc loc = 0 := by
  unfold haversineDistance toRadians jsAtan2
  simp [Real.sqrt_one]

theorem haversine_one_degree (lng : ℝ) :
    haversineDistance ⟨24, lng⟩ ⟨25, lng⟩ = 6371 * (Real.pi / 180) := by
  have hpi := Real.pi_pos
  have hθhalf : Real.pi / 360 < Real.pi / 2 := by linarith
  have hsin : 0 ≤ Real.sin (Real.pi / 360) :=
    Real.sin_nonneg_of_nonneg_of_le_pi (by linarith) (by linarith)
  have hcos : 0 < Real.cos (Real.pi / 360) :=
    Real.cos_pos_of_mem_Ioo ⟨by linarith, hθhalf⟩
  have hone : 1 - Real.sin (Real.pi / 360) * Real.sin (Real.pi / 360) =
      Real.cos (Real.pi / 360) * Real.cos (Real.pi / 360) := by
    nlinarith [Real.sin_sq_add_cos_sq (Real.pi / 360)]
  simp only [haversineDistance, toRadians]
  norm_num
  have h2 : Real.pi / 180 / 2 = Real.pi / 360 := by ring
  rw [h2, Real.sqrt_mul_self hsin, hone, Real.sqrt_mul_self (le_of_lt hcos)]
  unfold jsAtan2
  rw [if_pos hcos, ← Real.tan_eq_sin_div_cos,
    Real.arctan_tan (by linarith) hθhalf]
  ring

theorem calculateDistance_of_truthy (cur vis : GeoLoc)
    (h1 : cur.latitude ≠ 0) (h2 : vis.latitude ≠ 0) :
    calculateDistance cur vis = some (haversineDistance cur vis) := by
  unfold calculateDistance
  rw [if_neg (not_or.mpr ⟨h1, h2⟩)]

theorem estimateTravelTime_of_dist (cur vis : GeoLoc) (d : ℝ)
    (hd : calculateDistance cur vis = some d) (h0 : d ≠ 0) :
    estimateTravelTime cur vis = some (jsRoundR (d / 40 * 60)) := by
  unfold estimateTravelTime
  rw [hd]
  show (if d = 0 then none else some (jsRoundR (d / 40 * 60))) = some (jsRoundR (d / 40 * 60))
  rw [if_neg h0]

/-- Claim C8 (amended): `calculateDistance` returns the haversine
great-circle distance with Earth radius 6371 km whenever both latitudes
are truthy (nonzero — the guard `!latitude` also rejects latitude 0);
the self-distance is 0 and two points one degree of latitude apart are
within 1 km of 111 km; `estimateTravelTime` is the distance at 40 km/h in
rounded minutes when the distance is nonzero, and `null` when the distance
is 0 (the guard `!distance` also rejects a zero distance). -/
theorem distance_travel_time :
    (∀ cur vis : GeoLoc, cur.latitude ≠ 0 → vis.latitude ≠ 0 →
      calculateDistance cur vis = some (haversineDistance cur vis)) ∧
    (∀ loc : GeoLoc, haversineDistance loc loc = 0) ∧
    |haversineDistance ⟨24, 46.6753⟩ ⟨25, 46.6753⟩ - 111| ≤ 1 ∧
    (∀ (cur vis : GeoLoc) (d : ℝ), calculateDistance cur vis = some d → d ≠ 0 →
      estimateTravelTime cur vis = some (jsRoundR (d / 40 * 60))) := by
  refine ⟨calculateDistance_of_truthy, haversine_self, ?_, estimateTravelTime_of_dist⟩
  rw [haversine_one_degree]
  have h1 := Real.pi_gt_d6
  have h2 := Real.pi_lt_d2
  rw [abs_le]
  constructor <;> nlinarith

/-- Witness for C8 at concrete locations (Riyadh's coordinates from the
spec): the guard passes, the haversine value is returned, the self
distance is 0, and a one-degree pair gets a rounded travel time. -/
theorem distance_travel_time_witness :
    calculateDistance ⟨24.7136, 46.6753⟩ ⟨25.7136, 46.6753⟩ =
      some (haversineDistance ⟨24.7136, 46.6753⟩ ⟨25.7136, 46.6753⟩) ∧
    haversineDistance ⟨24.7136, 46.6753⟩ ⟨24.7136, 46.6753⟩ = 0 ∧
    estimateTravelTime ⟨24, 46.6753⟩ ⟨25, 46.6753⟩ =
      some (jsRoundR (haversineDistance ⟨24, 46.6753⟩ ⟨25, 46.6753⟩ / 40 * 60)) :=
  ⟨distance_travel_time.1 _ _ (by norm_num) (by norm_num),
   distance_travel_time.2.1 _,
   distance_travel_time.2.2.2 _ _ _
     (distance_travel_time.1 _ _ (by norm_num) (by norm_num))
     (by rw [haversine_one_degree]; positivity)⟩

/-- Counterexample to C8 as stated: at identical locations the distance is
0 but `estimateTravelTime` returns `null`, not the rounded 0 minutes the
claim demands; and a current location on the equator (latitude 0) makes
`calculateDistance` return `null` instead of the haversine distance. -/
theorem travel_time_zero_distance_cex :
    calculateDistance ⟨24.7136, 46.6753⟩ ⟨24.7136, 46.6753⟩ = some 0 ∧
    estimateTravelTime ⟨24.7136, 46.6753⟩ ⟨24.7136, 46.6753⟩ = none ∧
    jsRoundR ((0 : ℝ) / 40 * 60) = 0 ∧
    calculateDistance ⟨0, 46.6753⟩ ⟨24.7136, 46.6753⟩ = none := by
  have hz : haversineDistance ⟨24.7136, 46.6753⟩ ⟨24.7136, 46.6753⟩ = 0 :=
    haversine_self _
  refine ⟨?_, ?_, ?_, ?_⟩
  · unfold calculateDistance
    rw [if_neg (not_or.mpr ⟨by norm_num, by norm_num⟩), hz]
  · unfold estimateTravelTime calculateDistance
    rw [if_neg (not_or.mpr ⟨by norm_num, by norm_num⟩), hz]
    simp
  · unfold jsRoundR
    norm_num
  · unfold calculateDistance
    rw [if_pos (Or.inl rfl)]

/-! ## Claim C9 -/

/-- Claim C9 (amended): reconnection is attempted at most 5 times; the
k-th attempt (k = 1..5) schedules a delay of `min(1000 * 2^k, 30000)` ms
(2000, 4000, 8000, 16000, 30000 — the counter is incremented before the
delay is computed, so the base-1000 backoff starts at 2000 ms, not
1000 ms); after 5 attempts no further attempt is made and the connection
status becomes "error". -/
theorem reconnection_backoff :
    (∀ k : ℕ, k < maxReconnectAttempts → ∀ st : String,
      attemptReconnection ⟨k, st⟩ =
        (some (min (1000 * 2 ^ (k + 1)) 30000), ⟨k + 1, st⟩)) ∧
    (∀ s : ReconnState, maxReconnectAttempts ≤ s.reconnectAttempts →
      attemptReconnection s = (none, { s with connectionStatus := "error" })) ∧
    runReconnect 6 ⟨0, "disconnected"⟩ =
      ([some 2000, some 4000, some 8000, some 16000, some 30000, none], ⟨5, "error"⟩) := by
  refine ⟨?_, ?_, ?_⟩
  · intro k hk st
    unfold attemptReconnection
    rw [if_neg (Nat.not_le.mpr hk)]
  · intro s hs
    unfold attemptReconnection
    rw [if_pos hs]
  · decide

/-- Witness for C9 at the first attempt and at the exhausted state. -/
theorem reconnection_backoff_witness :
    attemptReconnection ⟨0, "disconnected"⟩ =
      (some (min (1000 * 2 ^ (0 + 1)) 30000), ⟨0 + 1, "disconnected"⟩) ∧
    attemptReconnection ⟨5, "connected"⟩ = (none, ⟨5, "error"⟩) :=
  ⟨reconnection_backoff.1 0 (by decide) "disconnected",
   reconnection_backoff.2.1 ⟨5, "connected"⟩ (by decide)⟩

/-- Counterexample to C9 as stated: the first attempt's delay is 2000 ms,
not `min(1000 * 2^(1-1), 30000) = 1000` ms, because `reconnectAttempts`
is incremented before `Math.pow(2, this.reconnectAttempts)` is taken. -/
theorem reconnection_first_delay_cex :
    (attemptReconnection ⟨0, "disconnected"⟩).1 = some 2000 ∧
    min (1000 * 2 ^ (1 - 1)) 30000 = 1000 ∧ (2000 : ℕ) ≠ 1000 :=
  ⟨rfl, rfl, by decide⟩

/-! ## Claim C10 -/

/-- Claim C10: after `loadNotifications`, `addNewNotification`,
`markAsRead`, `markAllAsRead` and `markNotificationRead`, the state's
`unreadCount` equals the number of notifications whose `is_read` is false
(the operations that can fail and change nothing preserve the invariant;
the others establish it outright). -/
theorem unread_count_inv :
    (∀ (fetched : List Notif) (s : NState), UnreadInv (loadNotifications true fetched s)) ∧
    (∀ (fetched : List Notif) (s : NState), UnreadInv s →
      UnreadInv (loadNotifications false fetched s)) ∧
    (∀ (n : Notif) (s : NState), UnreadInv (addNewNotification n s)) ∧
    (∀ (ok : Bool) (i : ℤ) (s : NState), UnreadInv s → UnreadInv (markAsRead ok i s)) ∧
    (∀ (ok : Bool) (s : NState), UnreadInv s → UnreadInv (markAllAsRead ok s)) ∧
    (∀ (i : ℤ) (s : NState), UnreadInv s → UnreadInv (markNotificationRead i s)) := by
  have hupd : ∀ s : NState, UnreadInv (updateUnreadCount s) := fun _ => rfl
  refine ⟨?_, ?_, ?_, ?_, ?_, ?_⟩
  · intro fetched s
    exact hupd _
  · intro fetched s hs
    simpa [loadNotifications] using hs
  · intro n s
    exact hupd _
  · intro ok i s hs
    cases ok
    · simpa [markAsRead] using hs
    · exact hupd _
  · intro ok s hs
    unfold markAllAsRead
    by_cases hlen :
        ((s.notifications.filter (fun n => !n.is_read)).map (fun n => n.id)).length ≠ 0
    · rw [if_pos hlen]
      cases ok
      · simpa using hs
      · exact hupd _
    · rw [if_neg hlen]
      exact hs
  · intro i s hs
    unfold markNotificationRead
    cases hf : s.notifications.find? (fun n => n.id = i) with
    | none => exact hs
    | some n =>
        cases hr : n.is_read
        · simp only [hr, Bool.not_false, if_pos]
          exact hupd _
        · simpa [hr] using hs

/-- Witness for C10 at concrete states: loading one unread notification
establishes the invariant, and marking it read preserves it. -/
theorem unread_count_inv_witness :
    UnreadInv (loadNotifications true [{ id := 1, is_read := false, isNew := false }]
      { notifications := [], unreadCount := 0, totalCount := 0 }) ∧
    UnreadInv (markAsRead true 1
      { notifications := [{ id := 1, is_read := false, isNew := true }],
        unreadCount := 1, totalCount := 1 }) :=
  ⟨unread_count_inv.1 _ _, unread_count_inv.2.2.2.1 true 1 _ rfl⟩

end SalesRep
